import Mathlib

/-!
Verification development for the CAM registry generator
(`src/data/generate_registry_data.py`).

The Python source is shallowly embedded below: XML elements become plain
record values, Python dictionaries become association lists that preserve
insertion order, raised exceptions become an explicit error type threaded
through `Except`, and Python truthiness (`if not lname`, `if extends`, ...)
is modelled explicitly wherever the source relies on it.  Exceptions that
the source raises implicitly through the Python runtime (KeyError,
AttributeError, TypeError) are modelled by dedicated error constructors,
because several behaviours of the program hinge on them.
-/

/-- Python `str.lower()` (ASCII behaviour, which is all the registry uses). -/
def pyLower (s : String) : String := ⟨s.data.map Char.toLower⟩

/-- Python truthiness of an optional string: `None` and `""` are falsy.
Used for `elem.get('attr')` results tested with `if attr:`. -/
def optStrTruthy : Option String → Bool
  | none => false
  | some s => s ≠ ""

/-- Python `'{}'.format(x)` where `x` is a string or `None`. -/
def pyStr : Option String → String
  | none => "None"
  | some s => s

/-- A run of `n` spaces, Python `" " * n`. -/
def spaces (n : Nat) : String := ⟨List.replicate n ' '⟩

/-- Split a character list at every occurrence of `c` (Python
`str.split(c)` for a one-character separator, empty pieces kept). -/
def splitChar (c : Char) : List Char → List (List Char)
  | [] => [[]]
  | x :: xs =>
    match splitChar c xs with
    | [] => [[]]
    | h :: t => if x = c then [] :: h :: t else (x :: h) :: t

/-- Python `s.split(c)` for a one-character separator, as a structurally
recursive function (the library `String.splitOn` is compiled by
well-founded recursion and does not reduce inside the kernel). -/
def pySplit (s : String) (c : Char) : List String :=
  (splitChar c s.data).map (fun l => ⟨l⟩)

def isSpaceChar (c : Char) : Bool :=
  c = ' ' ∨ c = '\t' ∨ c = '\n' ∨ c = '\r'

/-- Python `str.strip()` (ASCII whitespace). -/
def pyStrip (s : String) : String :=
  ⟨((s.data.dropWhile isSpaceChar).reverse.dropWhile isSpaceChar).reverse⟩

/-- Python `sep.join(pieces)`. -/
def pyJoin (sep : String) : List String → String
  | [] => ""
  | [x] => x
  | x :: xs => x ++ sep ++ pyJoin sep xs

/-- Number of `':'` characters in a string, Python `dim.count(':')`. -/
def colonCount (s : String) : Nat := (s.data.filter (fun c => c = ':')).length

/-- Python `[x.strip() for x in text.split(' ') if x]`. -/
def splitStrip (text : String) : List String :=
  ((pySplit text ' ').filter (fun x => x ≠ "")).map pyStrip

/-- Python `[x.strip().lower() for x in text.split(',') if x]`. -/
def splitStripLowerComma (text : String) : List String :=
  ((pySplit text ',').filter (fun x => x ≠ "")).map (fun x => pyLower (pyStrip x))

/-- Exact-key lookup in an insertion-ordered dictionary (Python `d[k]` /
`k in d`), returning the first (unique) matching value. -/
def lookupKey {κ α : Type} [DecidableEq κ] (l : List (κ × α)) (k : κ) : Option α :=
  (l.find? (fun p => p.1 = k)).map (fun p => p.2)

/-- Python `d[k] = v` on a dict: overwrite in place if the key exists,
otherwise append (insertion order preserved). -/
def assocSet {κ α : Type} [DecidableEq κ] : List (κ × α) → κ → α → List (κ × α)
  | [], k, v => [(k, v)]
  | p :: rest, k, v => if p.1 = k then (k, v) :: rest else p :: assocSet rest k v

/-- Python `set.add`: insert if not already present. -/
def insertSet (l : List String) (s : String) : List String :=
  if s ∈ l then l else l ++ [s]

/-- Python `max` over a list of numbers; `none` models the `ValueError`
raised on an empty list. -/
def listMax : List Nat → Option Nat
  | [] => none
  | x :: xs => some (xs.foldl max x)

/-- `elem.get(name)`: attribute lookup on an XML node, `None` when absent. -/
def getAttr (attrs : List (String × String)) (k : String) : Option String :=
  lookupKey attrs k

/-- `elem.get(name, default=d)`. -/
def getAttrD (attrs : List (String × String)) (k : String) (d : String) : String :=
  (getAttr attrs k).getD d

/-- `len` of an optional string; the registry only ever reaches this with a
present standard name (an absent one would already have crashed
`add_variable`), so `none` is measured as the empty string. -/
def pyLen (o : Option String) : Nat := (o.getD "").length

/-- Leaf XML node (`long_name`, `initial_value`, `data`, ... children). -/
structure Node0 where
  tag : String
  attrs : List (String × String)
  text : String
deriving DecidableEq

/-- XML node one level up: children of a `variable`/`ddt` node
(`dimensions`, `element`, `data`, ...).  An `element` child has its own
leaf children. -/
structure Node1 where
  tag : String
  attrs : List (String × String)
  text : String
  kids : List Node0
deriving DecidableEq

/-- XML node two levels up: children of a `file` node
(`variable`, `array`, `ddt`, `use`). -/
structure Node2 where
  tag : String
  attrs : List (String × String)
  text : String
  kids : List Node1
deriving DecidableEq

/-- A registry `file` node. -/
structure Node3 where
  attrs : List (String × String)
  kids : List Node2
deriving DecidableEq

/-- Every exception the modelled code can raise.  Each constructor
corresponds to one `raise` site (fields are the values interpolated into
the message) or to an exception coming from the Python runtime itself. -/
inductive RegError where
  /-- "duplicate variable local_name, '{ln}', in {dict}" plus, when the new
  standard name differs, ", already defined with standard_name, '{std}'". -/
  | duplicateLocalName : String → Option String → Option (Option String) → RegError
  /-- "duplicate variable standard_name, '{std}' from '{ln}' in '{dict}'"
  plus, when the owning variable is still present, ", already defined with
  local_name, '{ln}'". -/
  | duplicateStandardName : String → String → Option String → Option (Option String) → RegError
  /-- "Illegal dimension string, '{dim},' in '{ln}', step not allowed." -/
  | illegalDimensionStep : String → Option String → RegError
  /-- "Dimension, '{dim}', not found for '{ln}'" -/
  | dimensionNotFound : String → Option String → RegError
  /-- "Bad variable attribute, '{att}', for '{ln}'" -/
  | badAttribute : String → Option String → RegError
  /-- "Unknown Variable content, '{tag}'" -/
  | unknownContent : String → RegError
  /-- "{ln} is an unknown Variable type, {ttype}" -/
  | unknownVarType : Option String → String → RegError
  /-- "kind attribute illegal for DDT type {ttype}" -/
  | kindIllegalForDDT : Option String → RegError
  /-- "parameter, '{ln}', does not have an initial value" -/
  | missingInitialValue : Option String → RegError
  /-- "Unknown array index, '{index}', in '{parent}'" -/
  | unknownArrayIndex : String → Option String → RegError
  /-- "Cannot find element dimension, '{index}' in {parent}({dims})" -/
  | elementDimensionNotFound : String → Option String → List String → RegError
  /-- "DDT, '{ddt}', extends type '{ext}', however, this type is not known" -/
  | unknownParentType : Option String → String → RegError
  /-- "DDT, '{ddt}', cannot have both 'extends' and 'bindC' attributes" -/
  | conflictingAttributes : Option String → RegError
  /-- "Variable, '{var}', not found for DDT, '{ddt}', in '{dict}'" -/
  | unknownMember : String → Option String → Option String → RegError
  /-- "Unknown DDT element type, '{tag}', in '{ddt}'" -/
  | unknownDDTElement : String → Option String → RegError
  /-- "Trying to add {t} to registry, already defined in {module}" -/
  | typeCollision : Option String → Option String → RegError
  /-- "Illegal use entry, no {module|reference}" -/
  | illegalUseEntry : String → RegError
  /-- "Unknown registry File element, '{tag}'" -/
  | unknownFileElement : String → RegError
  /-- Python `KeyError` from an exact-key dict access such as
  `self[local_name]`. -/
  | pyKeyError : String → RegError
  /-- Python `AttributeError` from calling a method (e.g. `.lower()`) on
  `None`. -/
  | pyAttributeError : String → RegError
  /-- Python `TypeError`, e.g. `':'.join` over a list containing an int. -/
  | pyTypeError : String → RegError
deriving DecidableEq

/-- `Option String` lifted out of a value the source would call `.lower()`
on: `None` raises `AttributeError`. -/
def requireAttr (what : String) : Option String → Except RegError String
  | some s => .ok s
  | none => .error (.pyAttributeError what)

/-- `True` iff the computation returned normally. -/
def exOk {ε α : Type} : Except ε α → Bool
  | .ok _ => true
  | .error _ => false

mutual
/-- `TypeEntry`: a type name, the module defining it (`none` for an
intrinsic) and, for a DDT, the DDT object itself. -/
inductive TypeEntry : Type where
  | mk : (type_type : Option String) → (module : Option String) → (ddt : Option DDT) → TypeEntry

/-- Registry DDT after construction. -/
inductive DDT : Type where
  | mk : (ddt_type : Option String) → (ext : Option TypeEntry) →
         (bindc : Option String) → (priv : Option String) →
         (data : List Variable) → DDT

/-- Documented array element of a registry variable (class `ArrayElement`). -/
inductive ArrayElement : Type where
  | mk : (local_name : String) → (dimensions : List String) → (units : String) →
         (vtype : TypeEntry) → (kind : String) → (standard_name : Option String) →
         (long_name : String) → (initial_value : String) →
         (ic_names : Option (List String)) → (allocatable : String) →
         (parent_name : Option String) → (index_name : Option String) →
         (index_string : String) → (local_index_name_str : String) → ArrayElement

/-- Registry variable (class `Variable`, including the `VarBase` fields). -/
inductive Variable : Type where
  | mk : (local_name : Option String) → (dimensions : List String) → (units : String) →
         (vtype : TypeEntry) → (kind : String) → (standard_name : Option String) →
         (long_name : String) → (initial_value : String) →
         (ic_names : Option (List String)) → (allocatable : String) →
         (access : String) → (prot : Bool) → (def_dims_str : String) →
         (elements : List ArrayElement) → (type_string : String) → Variable
end

def TypeEntry.type_type : TypeEntry → Option String
  | .mk t _ _ => t

def TypeEntry.module : TypeEntry → Option String
  | .mk _ m _ => m

def TypeEntry.ddt : TypeEntry → Option DDT
  | .mk _ _ d => d

/-- `is_ddt` is the truthiness of the stored DDT reference. -/
def TypeEntry.is_ddt (e : TypeEntry) : Bool := e.ddt.isSome

def DDT.ddt_type : DDT → Option String
  | .mk t _ _ _ _ => t

def DDT.ext : DDT → Option TypeEntry
  | .mk _ e _ _ _ => e

def DDT.bindc : DDT → Option String
  | .mk _ _ b _ _ => b

def DDT.data : DDT → List Variable
  | .mk _ _ _ _ d => d

def Variable.local_name : Variable → Option String
  | .mk ln _ _ _ _ _ _ _ _ _ _ _ _ _ _ => ln

def Variable.dimensions : Variable → List String
  | .mk _ d _ _ _ _ _ _ _ _ _ _ _ _ _ => d

def Variable.units : Variable → String
  | .mk _ _ u _ _ _ _ _ _ _ _ _ _ _ _ => u

def Variable.vtype : Variable → TypeEntry
  | .mk _ _ _ t _ _ _ _ _ _ _ _ _ _ _ => t

def Variable.kind : Variable → String
  | .mk _ _ _ _ k _ _ _ _ _ _ _ _ _ _ => k

def Variable.standard_name : Variable → Option String
  | .mk _ _ _ _ _ s _ _ _ _ _ _ _ _ _ => s

def Variable.long_name : Variable → String
  | .mk _ _ _ _ _ _ l _ _ _ _ _ _ _ _ => l

def Variable.initial_value : Variable → String
  | .mk _ _ _ _ _ _ _ i _ _ _ _ _ _ _ => i

def Variable.ic_names : Variable → Option (List String)
  | .mk _ _ _ _ _ _ _ _ n _ _ _ _ _ _ => n

def Variable.allocatable : Variable → String
  | .mk _ _ _ _ _ _ _ _ _ a _ _ _ _ _ => a

def Variable.access : Variable → String
  | .mk _ _ _ _ _ _ _ _ _ _ a _ _ _ _ => a

def Variable.def_dims_str : Variable → String
  | .mk _ _ _ _ _ _ _ _ _ _ _ _ d _ _ => d

def Variable.elements : Variable → List ArrayElement
  | .mk _ _ _ _ _ _ _ _ _ _ _ _ _ e _ => e

def Variable.type_string : Variable → String
  | .mk _ _ _ _ _ _ _ _ _ _ _ _ _ _ t => t

def ArrayElement.local_name : ArrayElement → String
  | .mk ln _ _ _ _ _ _ _ _ _ _ _ _ _ => ln

def ArrayElement.dimensions : ArrayElement → List String
  | .mk _ d _ _ _ _ _ _ _ _ _ _ _ _ => d

def ArrayElement.standard_name : ArrayElement → Option String
  | .mk _ _ _ _ _ s _ _ _ _ _ _ _ _ => s

def ArrayElement.ic_names : ArrayElement → Option (List String)
  | .mk _ _ _ _ _ _ _ _ n _ _ _ _ _ => n

def ArrayElement.index_string : ArrayElement → String
  | .mk _ _ _ _ _ _ _ _ _ _ _ _ s _ => s

/-- `TypeRegistry`: a Python dict mapping type-name keys to entries.  Keys
are whatever string (or `None`) `add_type` was called with; the intrinsic
seeds are lower case. -/
abbrev TypeRegistry : Type := List (Option String × TypeEntry)

/-- The five intrinsic Fortran types seeded by `TypeRegistry.__init__`. -/
def TypeRegistry.init : TypeRegistry :=
  [(some "character", .mk (some "character") none none),
   (some "complex", .mk (some "complex") none none),
   (some "integer", .mk (some "integer") none none),
   (some "logical", .mk (some "logical") none none),
   (some "real", .mk (some "real") none none)]

/-- `known_type`: case-insensitive lookup (`test_type.lower()`). -/
def TypeRegistry.known_type (r : TypeRegistry) (test_type : String) : Option TypeEntry :=
  lookupKey r (some (pyLower test_type))

/-- `add_type`: exact-key presence test (`if ttype in self`), error naming
the prior module on collision, append otherwise. -/
def TypeRegistry.add_type (r : TypeRegistry) (new_type : Option String)
    (type_module : Option String) (type_ddt : Option DDT) : Except RegError TypeRegistry :=
  match lookupKey r new_type with
  | some e => .error (.typeCollision new_type e.module)
  | none => .ok (r ++ [(new_type, .mk new_type type_module type_ddt)])

/-- Constant dimensions table `__CONSTANT_DIMENSIONS`. -/
def Variable.constant_dimension (dim : String) : Option Nat :=
  if pyLower dim = "ccpp_constant_one" then some 1
  else if pyLower dim = "ccpp_constant_zero" then some 0
  else none

/-- `VarDict`: ordered dictionary of registry variables keyed by lowercased
local name, plus the append-only list of consumed (lowercased) standard
names and the set of known dimension tokens. -/
structure VarDict where
  name : Option String
  module_type : Option String
  entries : List (String × Variable)
  standard_names : List String
  dimensions : List String

/-- A fresh dictionary for a scope. -/
def VarDict.empty (name module_type : Option String) : VarDict :=
  ⟨name, module_type, [], [], []⟩

/-- `variable_list`: the dict's values in insertion order. -/
def VarDict.variable_list (d : VarDict) : List Variable := d.entries.map (fun p => p.2)

/-- `find_variable_by_standard_name`: first variable whose (lowercased)
standard name matches; members only enter through `add_variable`, which
guarantees they carry a standard name, so the optional comparison below is
exact on every reachable dictionary. -/
def VarDict.find_variable_by_standard_name (d : VarDict) (std_name : String) : Option Variable :=
  (d.entries.find? (fun p => p.2.standard_name.map pyLower = some (pyLower std_name))).map
    (fun p => p.2)

/-- `find_variable_by_local_name`: case-insensitive key lookup. -/
def VarDict.find_variable_by_local_name (d : VarDict) (local_name : String) : Option Variable :=
  lookupKey d.entries (pyLower local_name)

/-- The dimension bookkeeping done at the end of `add_variable`: every
component of every token runs through `constant_dimension`; a falsy result
(`None`, but also the integer 0 for `ccpp_constant_zero`) files the whole
token, lowercased, in the known-dimension set. -/
def addDimsOfToken (dims : List String) (dim : String) : List String :=
  ((pySplit dim ':').map pyStrip).foldl
    (fun acc ddim =>
      match Variable.constant_dimension ddim with
      | some n => if n ≠ 0 then acc else insertSet acc (pyLower dim)
      | none => insertSet acc (pyLower dim))
    dims

def addDims (dims : List String) (newdims : List String) : List String :=
  newdims.foldl addDimsOfToken dims

/-- `add_variable`.  Note two behaviours inherited from the source: the
presence test lowercases the key but the retrieval `self[local_name]` does
not (KeyError on a case-differing collision), and the standard-name check
runs against the append-only `__standard_names` list. -/
def VarDict.add_variable (d : VarDict) (newvar : Variable) : Except RegError VarDict :=
  match requireAttr "local_name" newvar.local_name with
  | .error e => .error e
  | .ok local_name =>
    if (lookupKey d.entries (pyLower local_name)).isSome then
      match lookupKey d.entries local_name with
      | none => .error (.pyKeyError local_name)
      | some ovar =>
        let extra : Option (Option String) :=
          if ovar.standard_name ≠ newvar.standard_name then some ovar.standard_name else none
        .error (.duplicateLocalName local_name d.name extra)
    else
      match requireAttr "standard_name" newvar.standard_name with
      | .error e => .error e
      | .ok std_name =>
        if pyLower std_name ∈ d.standard_names then
          let ovar := (d.entries.find?
            (fun p => p.2.standard_name.map pyLower = some (pyLower std_name))).map
            (fun p => p.2)
          .error (.duplicateStandardName std_name local_name d.name
            (ovar.map (fun v => v.local_name)))
        else
          .ok { d with
                entries := d.entries ++ [(pyLower local_name, newvar)],
                standard_names := d.standard_names ++ [pyLower std_name],
                dimensions := addDims d.dimensions newvar.dimensions }

/-- `remove_variable`: silently ignores an absent standard name, deletes
the dict entry otherwise, and deliberately leaves `__standard_names`
untouched ("NB: Do not remove standard_name, it is still an error"). -/
def VarDict.remove_variable (d : VarDict) (std_name : String) : Except RegError VarDict :=
  match d.find_variable_by_standard_name std_name with
  | some var =>
    match var.local_name with
    | some ln => .ok { d with entries := d.entries.filter (fun p => p.1 ≠ pyLower ln) }
    | none => .error (.pyAttributeError "local_name")
  | none => .ok d

/-- A Python value that is either an `int` or a `str`: the dimension
resolution loop in `Variable.__init__` stores the result of
`constant_dimension` (an int) or a local name (a str) in the same
variable. -/
inductive PyIS where
  | int : Nat → PyIS
  | str : String → PyIS
deriving DecidableEq

/-- Python truthiness: `0` and `""` are falsy. -/
def PyIS.truthy : PyIS → Bool
  | .int n => n ≠ 0
  | .str s => s ≠ ""

def optPyTruthy : Option PyIS → Bool
  | none => false
  | some v => v.truthy

/-- `':'.join(ldimstrs)`: raises `TypeError` when the list holds an int
(which it does whenever a constant dimension resolved). -/
def joinColon (l : List PyIS) : Except RegError String :=
  if l.all (fun v => match v with | .str _ => true | .int _ => false) then
    .ok (pyJoin ":" (l.map (fun v => match v with | .str s => s | .int n => toString n)))
  else .error (.pyTypeError "join")

/-- The per-component resolution loop for one dimension token: a component
resolves to the (truthy) value of `constant_dimension` or, failing the
truthiness test, to the local name of a scope variable with that standard
name; a still-falsy result raises "Dimension ... not found". -/
def resolveComponents (vd : VarDict) (local_name : Option String) :
    List String → List PyIS → Except RegError (List PyIS)
  | [], acc => .ok acc
  | ddim :: rest, acc =>
    let lname1 : Option PyIS := (Variable.constant_dimension ddim).map PyIS.int
    let lname2 : Option PyIS :=
      if optPyTruthy lname1 then lname1
      else
        match vd.find_variable_by_standard_name ddim with
        | some var => var.local_name.map PyIS.str
        | none => lname1
    if optPyTruthy lname2 then
      match lname2 with
      | some v => resolveComponents vd local_name rest (acc ++ [v])
      | none => .error (.dimensionNotFound ddim local_name)
    else .error (.dimensionNotFound ddim local_name)

/-- One token of a static-shape dimension string: split on `':'`, resolve
each component, and re-join with `':'`. -/
def processDimToken (vd : VarDict) (local_name : Option String) (dim : String) :
    Except RegError String :=
  match resolveComponents vd local_name ((pySplit dim ':').map pyStrip) [] with
  | .ok l => joinColon l
  | .error e => .error e

/-- `Variable.__VAR_ATTRIBUTES`. -/
def VAR_ATTRIBUTES : List String :=
  ["access", "allocatable", "dycore", "extends", "kind", "local_name", "name",
   "standard_name", "type", "units", "version"]

/-- The attribute whitelist loop at the top of `Variable.__init__`. -/
def checkAttrs (local_name : Option String) : List (String × String) → Except RegError Unit
  | [] => .ok ()
  | (k, _) :: rest =>
    if k ∈ VAR_ATTRIBUTES then checkAttrs local_name rest
    else .error (.badAttribute k local_name)

/-- The token loop inside the `dimensions` branch of `Variable.__init__`:
a token with more than one `':'` is an illegal step; tokens of a
static-shape declaration (raw allocatable attribute `""`, `"parameter"` or
`"target"` - note the unnormalised value, so the default `"none"` takes the
deferred branch) are resolved, all others become `':'`. -/
def processTokens (alloc_raw : String) (vd : VarDict) (local_name : Option String) :
    List String → List String → Except RegError (List String)
  | [], acc => .ok acc
  | dim :: rest, acc =>
    if colonCount dim > 1 then .error (.illegalDimensionStep dim local_name)
    else if alloc_raw = "" ∨ alloc_raw = "parameter" ∨ alloc_raw = "target" then
      match processDimToken vd local_name dim with
      | .ok s => processTokens alloc_raw vd local_name rest (acc ++ [s])
      | .error e => .error e
    else processTokens alloc_raw vd local_name rest (acc ++ [":"])

/-- First pass over the children of a `variable` node: `dimensions`
children are parsed (the last one wins), the four other known tags are
deferred, anything else is fatal UnknownContent.  The accumulator carries
(`my_dimensions`, `def_dims_str`). -/
def processVarKids (alloc_raw : String) (vd : VarDict) (local_name : Option String) :
    List Node1 → List String × String → Except RegError (List String × String)
  | [], acc => .ok acc
  | k :: ks, acc =>
    if k.tag = "dimensions" then
      match processTokens alloc_raw vd local_name (splitStrip k.text) [] with
      | .ok def_dims =>
        let dstr := if def_dims ≠ [] then "(" ++ pyJoin ", " def_dims ++ ")" else acc.2
        processVarKids alloc_raw vd local_name ks (splitStrip k.text, dstr)
      | .error e => .error e
    else if k.tag = "long_name" ∨ k.tag = "initial_value" ∨ k.tag = "element" ∨
            k.tag = "ic_file_input_names" then
      processVarKids alloc_raw vd local_name ks acc
    else .error (.unknownContent k.tag)

/-- The child scan in `VarBase.__init__`: pick up `long_name`,
`initial_value` and `ic_file_input_names`; silently ignore every other tag
("just ignore other tags").  Input is the (tag, text) projection of the
children. -/
def varBaseStep (acc : String × String × Option (List String)) (k : String × String) :
    String × String × Option (List String) :=
  if k.1 = "long_name" then (k.2, acc.2.1, acc.2.2)
  else if k.1 = "initial_value" then (acc.1, k.2, acc.2.2)
  else if k.1 = "ic_file_input_names" then (acc.1, acc.2.1, some (splitStrip k.2))
  else acc

def varBaseScan (kids : List (String × String)) : String × String × Option (List String) :=
  kids.foldl varBaseStep ("", "", none)

/-- The fields `VarBase.__init__` computes. -/
structure VarBaseOut where
  units : String
  vtype : TypeEntry
  kind : String
  standard_name : Option String
  long_name : String
  initial_value : String
  ic_names : Option (List String)
  allocatable : String

/-- `VarBase.__init__` (everything except storing `local_name` and
`dimensions`, which the callers keep): type resolution, the DDT/kind
check, the child scan and the pointer default initial value. -/
def VarBase.initM (attrs : List (String × String)) (kidsTT : List (String × String))
    (local_name : Option String) (known : TypeRegistry) (type_default : Option String)
    (units_default kind_default alloc_default : String) : Except RegError VarBaseOut :=
  let units := getAttrD attrs "units" units_default
  let ttypeOpt : Option String :=
    match getAttr attrs "type" with
    | some t => some t
    | none => type_default
  match ttypeOpt with
  | none => .error (.pyAttributeError "type")
  | some ttype =>
    let kind := getAttrD attrs "kind" kind_default
    let std := getAttr attrs "standard_name"
    let alloc0 := getAttrD attrs "allocatable" alloc_default
    let alloc := if alloc0 = "none" then "" else alloc0
    match known.known_type ttype with
    | some vt =>
      if vt.is_ddt ∧ kind ≠ "" then .error (.kindIllegalForDDT vt.type_type)
      else
        let scanned := varBaseScan kidsTT
        let init1 :=
          if scanned.2.1 = "" ∧ alloc = "pointer" then "NULL()" else scanned.2.1
        .ok ⟨units, vt, kind, std, scanned.1, init1, scanned.2.2, alloc⟩
    | none => .error (.unknownVarType local_name ttype)

/-- `','.join` over a list that may hold `None` (a local name fetched from
a dictionary member): `TypeError` if any entry is `None`. -/
def joinCommaOpt (l : List (Option String)) : Except RegError String :=
  if l.all Option.isSome then .ok (pyJoin "," (l.map pyStr))
  else .error (.pyTypeError "join")

/-- The position scan of `ArrayElement.__init__`: walk the parent's
dimension tokens, replace the one equal to `index_pos` by the index
reference and every other one by `':'`, dropping the matched token from
the element's own dimensions. -/
def scanIndexPos (pos : Option String) (iname : String) (vlocal : Option String)
    (dims : List String) : Bool × List String × List String × List (Option String) :=
  dims.foldl
    (fun acc dim =>
      if some dim = pos then
        (true, acc.2.1, acc.2.2.1 ++ [iname], acc.2.2.2 ++ [vlocal])
      else
        (acc.1, acc.2.1 ++ [dim], acc.2.2.1 ++ [":"], acc.2.2.2 ++ [some ":"]))
    (false, [], [], [])

/-- `ArrayElement.__init__`. -/
def ArrayElement.init (node : Node1) (parent_name : Option String)
    (dimensions : List String) (known : TypeRegistry) (parent_type : Option String)
    (parent_kind parent_units parent_alloc : String) (vd : VarDict) :
    Except RegError ArrayElement :=
  let index_name := getAttr node.attrs "index_name"
  let pos := getAttr node.attrs "index_pos"
  match requireAttr "index_name" index_name with
  | .error e => .error e
  | .ok iname =>
    match vd.find_variable_by_standard_name iname with
    | none => .error (.unknownArrayIndex iname parent_name)
    | some var =>
      match scanIndexPos pos iname var.local_name dimensions with
      | (found, my_dimensions, my_index, my_local_index) =>
        if found then
          let index_string := pyJoin "," my_index
          match joinCommaOpt my_local_index with
          | .error e => .error e
          | .ok localJoin =>
            let local_index_name_str := pyStr parent_name ++ "(" ++ localJoin ++ ")"
            let local_name := pyStr parent_name ++ "(" ++ index_string ++ ")"
            match VarBase.initM node.attrs (node.kids.map (fun k => (k.tag, k.text)))
                (some local_name) known parent_type parent_units parent_kind parent_alloc with
            | .error e => .error e
            | .ok base =>
              .ok (ArrayElement.mk local_name my_dimensions base.units base.vtype base.kind
                base.standard_name base.long_name base.initial_value base.ic_names
                base.allocatable parent_name index_name index_string local_index_name_str)
        else .error (.elementDimensionNotFound iname parent_name dimensions)

/-- Second pass over the children of a `variable` node: construct the
`ArrayElement` children in order. -/
def processElems (known : TypeRegistry) (vd : VarDict) (parent_name : Option String)
    (my_dims : List String) (ttype : Option String) (kind units alloc_raw : String) :
    List Node1 → List ArrayElement → Except RegError (List ArrayElement)
  | [], acc => .ok acc
  | k :: ks, acc =>
    if k.tag = "element" then
      match ArrayElement.init k parent_name my_dims known ttype kind units alloc_raw vd with
      | .ok e => processElems known vd parent_name my_dims ttype kind units alloc_raw ks (acc ++ [e])
      | .error e => .error e
    else processElems known vd parent_name my_dims ttype kind units alloc_raw ks acc

/-- `Variable.__init__`. -/
def Variable.init (node : Node2) (known : TypeRegistry) (vd : VarDict) :
    Except RegError Variable :=
  let local_name := getAttr node.attrs "local_name"
  let alloc_raw := getAttrD node.attrs "allocatable" "none"
  match checkAttrs local_name node.attrs with
  | .error e => .error e
  | .ok _ =>
    let ttype := getAttr node.attrs "type"
    let access0 := getAttrD node.attrs "access" "public"
    let access := if access0 = "protected" then "public" else access0
    let prot := access0 = "protected"
    match processVarKids alloc_raw vd local_name node.kids ([], "") with
    | .error e => .error e
    | .ok dimsOut =>
      match VarBase.initM node.attrs (node.kids.map (fun k => (k.tag, k.text)))
          local_name known ttype "" "" "none" with
      | .error e => .error e
      | .ok base =>
        match processElems known vd local_name dimsOut.1 ttype base.kind base.units
            alloc_raw node.kids [] with
        | .error e => .error e
        | .ok elems =>
          if base.allocatable = "parameter" ∧ base.initial_value = "" then
            .error (.missingInitialValue local_name)
          else
            let type_string :=
              if optStrTruthy base.vtype.module then "type(" ++ pyStr base.vtype.type_type ++ ")"
              else if base.kind ≠ "" then pyStr base.vtype.type_type ++ "(" ++ base.kind ++ ")"
              else pyStr base.vtype.type_type
            .ok (Variable.mk local_name dimsOut.1 base.units base.vtype base.kind
              base.standard_name base.long_name base.initial_value base.ic_names
              base.allocatable access prot dimsOut.2 elems type_string)

/-- The dycore filter on a `data` child: skip the member when the child
declares a dycore allow-list that does not contain the active dycore. -/
def dycoreExcluded (dycore : String) (k : Node1) : Prop :=
  splitStripLowerComma (getAttrD k.attrs "dycore" "") ≠ [] ∧
    dycore ∉ splitStripLowerComma (getAttrD k.attrs "dycore" "")

instance (dycore : String) (k : Node1) : Decidable (dycoreExcluded dycore k) := by
  unfold dycoreExcluded
  infer_instance

/-- The `data` child loop of `DDT.__init__`: each included member is looked
up by standard name in the scope dictionary and moved into the DDT (the
dictionary entry is removed, the standard name stays reserved); a missing
member or an unknown child tag is fatal. -/
def ddtDataKids (ddt_type : Option String) (dycore : String) :
    List Node1 → List Variable × VarDict → Except RegError (List Variable × VarDict)
  | [], acc => .ok acc
  | k :: ks, acc =>
    if k.tag = "data" then
      if dycoreExcluded dycore k then
        ddtDataKids ddt_type dycore ks acc
      else
        match acc.2.find_variable_by_standard_name k.text with
        | some var =>
          match acc.2.remove_variable k.text with
          | .ok vd2 => ddtDataKids ddt_type dycore ks (acc.1 ++ [var], vd2)
          | .error e => .error e
        | none => .error (.unknownMember k.text ddt_type acc.2.name)
    else .error (.unknownDDTElement k.tag ddt_type)

/-- `DDT.__init__`: resolve `extends` through the shared registry (any
registered entry - intrinsic or derived - satisfies the check), reject
`extends` together with a truthy `bindC`, then consume the `data`
children. -/
def DDT.init (node : Node2) (known : TypeRegistry) (vd : VarDict) (dycore : String) :
    Except RegError (DDT × VarDict) :=
  let ddt_type := getAttr node.attrs "type"
  let extends_attr := getAttr node.attrs "extends"
  let ext : Option TypeEntry :=
    match extends_attr with
    | none => none
    | some s => known.known_type s
  if optStrTruthy extends_attr ∧ ext.isNone then
    .error (.unknownParentType ddt_type (extends_attr.getD ""))
  else
    let bindc := getAttr node.attrs "bindC"
    if ext.isSome ∧ optStrTruthy bindc then .error (.conflictingAttributes ddt_type)
    else
      let priv := getAttr node.attrs "private"
      match ddtDataKids ddt_type dycore node.kids ([], vd) with
      | .ok out => .ok (DDT.mk ddt_type ext bindc priv out.1, out.2)
      | .error e => .error e

/-- The state a `File` accumulates while parsing its children. -/
structure FileState where
  name : Option String
  ftype : Option String
  var_dict : VarDict
  ddts : List (Option String × DDT)
  use_statements : List (String × String)

/-- Processing of one child of a `file` node (`File.__init__` loop body):
a single pass in document order over variable/array, ddt and use tags. -/
def fileStep (dycore : String) (acc : FileState × TypeRegistry) (obj : Node2) :
    Except RegError (FileState × TypeRegistry) :=
  if obj.tag = "variable" ∨ obj.tag = "array" then
    match Variable.init obj acc.2 acc.1.var_dict with
    | .error e => .error e
    | .ok newvar =>
      match acc.1.var_dict.add_variable newvar with
      | .error e => .error e
      | .ok vd => .ok ({ acc.1 with var_dict := vd }, acc.2)
  else if obj.tag = "ddt" then
    match DDT.init obj acc.2 acc.1.var_dict dycore with
    | .error e => .error e
    | .ok out =>
      match acc.2.add_type out.1.ddt_type acc.1.name (some out.1) with
      | .error e => .error e
      | .ok reg2 =>
        let newddts := assocSet acc.1.ddts out.1.ddt_type out.1
        .ok ({ acc.1 with var_dict := out.2, ddts := newddts }, reg2)
  else if obj.tag = "use" then
    if ¬ optStrTruthy (getAttr obj.attrs "module") then .error (.illegalUseEntry "module")
    else if ¬ optStrTruthy (getAttr obj.attrs "reference") then
      .error (.illegalUseEntry "reference")
    else
      let pair := ((getAttr obj.attrs "module").getD "", (getAttr obj.attrs "reference").getD "")
      .ok ({ acc.1 with use_statements := acc.1.use_statements ++ [pair] }, acc.2)
  else .error (.unknownFileElement obj.tag)

/-- The child loop of `File.__init__`. -/
def fileKids (dycore : String) : List Node2 → FileState × TypeRegistry →
    Except RegError (FileState × TypeRegistry)
  | [], acc => .ok acc
  | k :: ks, acc =>
    match fileStep dycore acc k with
    | .ok acc2 => fileKids dycore ks acc2
    | .error e => .error e

/-- `File.__init__`. -/
def File.init (node : Node3) (known : TypeRegistry) (dycore : String) :
    Except RegError (FileState × TypeRegistry) :=
  fileKids dycore node.kids
    ({ name := getAttr node.attrs "name", ftype := getAttr node.attrs "type",
       var_dict := VarDict.empty (getAttr node.attrs "name") (getAttr node.attrs "type"),
       ddts := [], use_statements := [] }, known)

/-- A single quote character (Python writes the name tables with
`"'{}'".format(...)`). -/
def squo : String := ⟨[Char.ofNat 39]⟩

/-- An entry of the working list in `write_ic_names`: the list starts out
holding `Variable`s (DDT members and dictionary members) and array
elements get appended to it. -/
inductive VarEnt where
  | var : Variable → VarEnt
  | elem : ArrayElement → VarEnt

def VarEnt.standard_name : VarEnt → Option String
  | .var v => v.standard_name
  | .elem e => e.standard_name

def VarEnt.ic_names : VarEnt → Option (List String)
  | .var v => v.ic_names
  | .elem e => e.ic_names

/-- An item of the Python list `ic_names_with_spaces`: normally a string,
but the filler branch `.append(fake_ic_name * k)` pushes a whole list as a
single item. -/
inductive PyVal where
  | str : String → PyVal
  | lst : List String → PyVal
deriving DecidableEq

/-- Python `str` of a list of plain strings, as produced by
`'{}'.format(some_list)`. -/
def pyListRepr (l : List String) : String :=
  "[" ++ pyJoin ", " (l.map (fun s => squo ++ s ++ squo)) ++ "]"

/-- `"'{}'".format(n)` for an `ic_names_with_spaces` item. -/
def pyValQuoted : PyVal → String
  | .str s => squo ++ s ++ squo
  | .lst l => squo ++ pyListRepr l ++ squo

/-- `File.find_ic_name_max_len`: running maximum of the lengths of all IC
names of all qualifying variables. -/
def File.find_ic_name_max_len (variable_list : List VarEnt) : Nat :=
  variable_list.foldl
    (fun m v =>
      match v.ic_names with
      | some names => names.foldl (fun m2 nm => if nm.length > m2 then nm.length else m2) m
      | none => m)
    0

/-- Everything `File.write_ic_names` computes before emitting text: the
three scalars, the maximal alias count, the padded standard-name strings,
the alias rows as Python list items, and the joined row strings. -/
structure ICOut where
  num_vars : Nat
  stdname_max_len : Nat
  ic_name_max_len : Nat
  ic_name_max_num : Nat
  stdname_strs : List String
  ic_rows : List (List PyVal)
  ic_name_strs : List String
deriving DecidableEq

/-- `File.write_ic_names`, from the point where the gathered
`variable_list` (DDT members followed by dictionary members) exists.  It
appends the array elements of the gathered variables, computes the
maxima, and builds the two tables; `none` models the two early `return`s
(no variable declares IC names / no standard names at all).  Note the
filler branch: the source appends `fake_ic_name * k` - a list - as one
item instead of extending by k blank entries. -/
def write_ic_names (variable_list : List Variable) : Option ICOut :=
  let expanded : List VarEnt :=
    variable_list.map VarEnt.var ++
      (variable_list.flatMap (fun v => v.elements.map VarEnt.elem))
  match listMax (expanded.filterMap (fun v => v.ic_names.map List.length)) with
  | none => none
  | some ic_name_max_num =>
    match listMax (expanded.map (fun v => pyLen v.standard_name)) with
    | none => none
    | some stdname_max_len =>
      let num_vars := (expanded.filter (fun v => v.ic_names.isSome)).length
      let ic_name_max_len := File.find_ic_name_max_len expanded
      let fake_ic_name := spaces ic_name_max_len
      let stdname_strs := expanded.filterMap (fun v => v.ic_names.map (fun _ =>
        squo ++ pyStr v.standard_name ++ spaces (stdname_max_len - pyLen v.standard_name) ++ squo))
      let ic_rows := expanded.filterMap (fun v => v.ic_names.map (fun names =>
        let withSp := names.map (fun nm => PyVal.str (nm ++ spaces (ic_name_max_len - nm.length)))
        if ic_name_max_num - names.length ≠ 0 then
          withSp ++ [PyVal.lst (List.replicate (ic_name_max_num - names.length) fake_ic_name)]
        else withSp))
      let ic_name_strs := ic_rows.map (fun row =>
        pyJoin ", " (row.map pyValQuoted))
      some ⟨num_vars, stdname_max_len, ic_name_max_len, ic_name_max_num,
            stdname_strs, ic_rows, ic_name_strs⟩

/-! Concrete inputs used by the claim theorems and witnesses. -/

/-- An empty scope dictionary named `foo` (as in the source doctests). -/
def vdE : VarDict := VarDict.empty (some "foo") (some "module")

/-- Variable `u` / `east_wind`. -/
def varWindU : Variable :=
  .mk (some "u") [] "m s-1" (.mk (some "real") none none) "" (some "east_wind") "" "" none ""
    "public" false "" [] "real"

/-- Variable `U` / `north_wind` (local name differing from `u` only in
case). -/
def varWindUpper : Variable :=
  .mk (some "U") [] "m s-1" (.mk (some "real") none none) "" (some "north_wind") "" "" none ""
    "public" false "" [] "real"

/-- Variable `u` / `north_wind` (same local name as `varWindU`, other
standard name). -/
def varWindU2 : Variable :=
  .mk (some "u") [] "m s-1" (.mk (some "real") none none) "" (some "north_wind") "" "" none ""
    "public" false "" [] "real"

/-- Variable `u2` / `east_wind` (fresh local name, reused standard name). -/
def varWindReuse : Variable :=
  .mk (some "u2") [] "m s-1" (.mk (some "real") none none) "" (some "east_wind") "" "" none ""
    "public" false "" [] "real"

/-- The scope dictionary holding `varWindU` (the state after one
successful `add_variable`). -/
def dictWind : VarDict :=
  ⟨some "physics_types", some "module", [("u", varWindU)], ["east_wind"], []⟩

/-- `allocatable="target"` variable whose dimension is the constant
`ccpp_constant_zero`. -/
def nodeConstZero : Node2 :=
  ⟨"variable",
   [("local_name", "u"), ("standard_name", "east_wind"), ("type", "real"),
    ("units", "m s-1"), ("allocatable", "target")],
   "", [⟨"dimensions", [], "ccpp_constant_zero", []⟩]⟩

/-- `allocatable="target"` variable whose dimension is the constant
`ccpp_constant_one`. -/
def nodeConstOne : Node2 :=
  ⟨"variable",
   [("local_name", "u"), ("standard_name", "east_wind"), ("type", "real"),
    ("units", "m s-1"), ("allocatable", "target")],
   "", [⟨"dimensions", [], "ccpp_constant_one", []⟩]⟩

/-- Variable with default allocation mode (`none`) and a dimension that
resolves to nothing at all. -/
def nodeNoAllocUnresolved : Node2 :=
  ⟨"variable",
   [("local_name", "u"), ("standard_name", "east_wind"), ("type", "real"),
    ("units", "m s-1")],
   "", [⟨"dimensions", [], "mystery_dimension", []⟩]⟩

/-- Qualifying variable with three IC aliases. -/
def icVarA : Variable :=
  .mk (some "a_var") [] "" (.mk (some "real") none none) "" (some "a") "" ""
    (some ["aa", "bb", "cc"]) "" "public" false "" [] "real"

/-- Qualifying variable with one IC alias (list shorter than the maximum). -/
def icVarB : Variable :=
  .mk (some "b_var") [] "" (.mk (some "real") none none) "" (some "bcd") "" ""
    (some ["dd"]) "" "public" false "" [] "real"

/-- DDT node extending the intrinsic type `real`. -/
def nodeDDTExtReal : Node2 :=
  ⟨"ddt", [("type", "physics_state"), ("extends", "real")], "", []⟩

/-- DDT node extending an unregistered type `foo`. -/
def nodeDDTExtFoo : Node2 :=
  ⟨"ddt", [("type", "physics_state"), ("extends", "foo")], "", []⟩

/-- Variable node declaring standard name `x`. -/
def varNodeX : Node2 :=
  ⟨"variable",
   [("local_name", "q"), ("standard_name", "x"), ("type", "real"), ("units", "kg")], "", []⟩

/-- DDT node consuming the variable with standard name `x`. -/
def ddtNodeX : Node2 :=
  ⟨"ddt", [("type", "physics_state")], "", [⟨"data", [], "x", []⟩]⟩

/-- File whose ddt tag precedes the variable it references. -/
def fileNodeRev : Node3 :=
  ⟨[("name", "physics_types"), ("type", "module")], [ddtNodeX, varNodeX]⟩

/-- The same file with the variable tag first. -/
def fileNodeFwd : Node3 :=
  ⟨[("name", "physics_types"), ("type", "module")], [varNodeX, ddtNodeX]⟩

/-- The child tags `Variable.__init__` passes over without error. -/
def passTags : List String := ["long_name", "initial_value", "element", "ic_file_input_names"]

/-- The child tags `VarBase.__init__` interprets; all others are ignored
there. -/
def recognizedTags : List String := ["long_name", "initial_value", "ic_file_input_names"]

/-- A `dimensions` child whose token has two `':'` separators. -/
def dimsKidStep : Node1 := ⟨"dimensions", [], "A:B:C", []⟩

/-- Variable node (`east_wind`) carrying `dimsKidStep`. -/
def nodeStep : Node2 :=
  ⟨"variable",
   [("local_name", "u"), ("standard_name", "east_wind"), ("type", "real"), ("units", "m s-1")],
   "", [dimsKidStep]⟩

/-- Variable node with an unknown child tag `dessert`. -/
def nodeVarDessert : Node2 :=
  ⟨"variable",
   [("local_name", "u"), ("standard_name", "east_wind"), ("type", "real"), ("units", "m s-1")],
   "", [⟨"dessert", [], "ice_cream", []⟩]⟩

/-- Index variable `k` / `vertical_index`. -/
def varIndexK : Variable :=
  .mk (some "k") [] "1" (.mk (some "integer") none none) "" (some "vertical_index") "" "" none ""
    "public" false "" [] "integer"

/-- Scope dictionary holding the index variable. -/
def dictIndexK : VarDict :=
  ⟨some "phys", some "module", [("k", varIndexK)], ["vertical_index"], []⟩

/-- `element` node with an unknown child tag `dessert`. -/
def elemNodeDessert : Node1 :=
  ⟨"element",
   [("index_name", "vertical_index"), ("index_pos", "lev"), ("standard_name", "temp_lev")],
   "", [⟨"dessert", [], "ice_cream"⟩]⟩

/-- The dictionary `dictWind` after `remove_variable "east_wind")`: entry
gone, standard name still reserved. -/
def dictWindRemoved : VarDict :=
  ⟨some "physics_types", some "module", [], ["east_wind"], []⟩

/-! Helper lemmas shared by the claim theorems. -/

theorem remove_ok_preserves (d : VarDict) (t : String) (d' : VarDict)
    (h : d.remove_variable t = .ok d') :
    d'.standard_names = d.standard_names ∧ d'.name = d.name := by
  unfold VarDict.remove_variable at h
  split at h
  · split at h
    · simp only [Except.ok.injEq] at h
      subst h
      exact ⟨rfl, rfl⟩
    · simp at h
  · simp only [Except.ok.injEq] at h
    subst h
    exact ⟨rfl, rfl⟩

/-- C10: `remove(standard_name)` with no matching variable is a silent
no-op: it returns normally and leaves the whole dictionary (ordered
entries, consumed standard names, known dimensions) unchanged. -/
theorem c10_remove_missing_noop (d : VarDict) (s : String)
    (h : d.find_variable_by_standard_name s = none) :
    d.remove_variable s = .ok d := by
  unfold VarDict.remove_variable
  rw [h]

/-- Witness for C10 at a concrete input. -/
theorem c10_witness :
    vdE.find_variable_by_standard_name "ghost" = none ∧
    vdE.remove_variable "ghost" = .ok vdE :=
  ⟨rfl, c10_remove_missing_noop vdE "ghost" rfl⟩

/-- C2: after `remove_variable` detaches a variable, the consumed
standard-name list is unchanged (append-only reservation), and adding any
variable whose standard name (case-insensitively) is still reserved and
whose local name is fresh fails with DuplicateStandardName. -/
theorem c2_removed_name_stays_reserved (d : VarDict) (target : String) (d' : VarDict)
    (nv : Variable) (ln s : String)
    (hrem : d.remove_variable target = .ok d')
    (hln : nv.local_name = some ln)
    (hs : nv.standard_name = some s)
    (hfresh : lookupKey d'.entries (pyLower ln) = none)
    (hres : pyLower s ∈ d.standard_names) :
    d'.standard_names = d.standard_names ∧
    d'.add_variable nv = .error (.duplicateStandardName s ln d.name
      (((d'.entries.find? (fun p => p.2.standard_name.map pyLower = some (pyLower s))).map
        (fun p => p.2)).map (fun v => v.local_name))) := by
  obtain ⟨hstd, hname⟩ := remove_ok_preserves d target d' hrem
  refine ⟨hstd, ?_⟩
  unfold VarDict.add_variable
  rw [hln]
  simp only [requireAttr]
  rw [hfresh]
  simp only [Option.isSome_none, Bool.false_eq_true, if_false]
  rw [hs]
  simp only [requireAttr]
  rw [hstd, hname, if_pos hres]

/-- Witness for C2 at a concrete input: after consuming `east_wind`, a new
variable `u2` with the same standard name is still rejected. -/
theorem c2_witness :
    dictWindRemoved.standard_names = dictWind.standard_names ∧
    dictWindRemoved.add_variable varWindReuse =
      .error (.duplicateStandardName "east_wind" "u2" (some "physics_types") none) := by
  have h := c2_removed_name_stays_reserved dictWind "east_wind" dictWindRemoved varWindReuse
    "u2" "east_wind" rfl rfl rfl rfl (by decide)
  exact ⟨h.1, h.2⟩

/-- C1: evaluation at the failing input.  With `u`/`east_wind` already in
the scope, adding `U` (a case-insensitive local-name collision with a
different spelling) crashes with a Python KeyError from the exact-key
access `self[local_name]` instead of raising the DuplicateLocalName error;
only the same-spelling collision `u`/`north_wind` produces the documented
DuplicateLocalName error naming the conflicting standard name. -/
theorem c1_code_eval :
    dictWind.add_variable varWindUpper = .error (.pyKeyError "U") ∧
    dictWind.add_variable varWindU2 =
      .error (.duplicateLocalName "u" (some "physics_types") (some (some "east_wind"))) :=
  ⟨rfl, rfl⟩

/-- C3: evaluation at the failing inputs.  A `target` variable dimensioned
by the recognized constant `ccpp_constant_zero` fails with "Dimension ...
not found" (the constant resolves to the falsy integer 0); one dimensioned
by `ccpp_constant_one` crashes with a TypeError (the integer 1 reaches
`':'.join`); and a default-allocation (`none`) variable skips dimension
resolution entirely, accepting an unresolvable dimension and declaring it
deferred-shape `(:)`. -/
theorem c3_code_eval :
    Variable.init nodeConstZero TypeRegistry.init vdE =
      .error (.dimensionNotFound "ccpp_constant_zero" (some "u")) ∧
    Variable.init nodeConstOne TypeRegistry.init vdE = .error (.pyTypeError "join") ∧
    (Variable.init nodeNoAllocUnresolved TypeRegistry.init vdE).map Variable.def_dims_str =
      .ok "(:)" :=
  ⟨rfl, rfl, rfl⟩

/-- C4: evaluation at the failing input.  Two qualifying variables with
alias lists of lengths 3 and 1 (N = 2, S = 3, L = 2, W = 3): the
standard-name table is correct, but the short alias row has 2 items, not
W = 3 - the filler branch appends the whole `fake_ic_name * k` list as a
single item, whose row text embeds a Python list repr instead of two
blank entries. -/
theorem c4_code_eval :
    write_ic_names [icVarA, icVarB] = some (ICOut.mk 2 3 2 3
      [squo ++ "a  " ++ squo, squo ++ "bcd" ++ squo]
      [[PyVal.str "aa", PyVal.str "bb", PyVal.str "cc"],
       [PyVal.str "dd", PyVal.lst ["  ", "  "]]]
      [squo ++ "aa" ++ squo ++ ", " ++ squo ++ "bb" ++ squo ++ ", " ++ squo ++ "cc" ++ squo,
       squo ++ "dd" ++ squo ++ ", " ++ squo ++ "[" ++ squo ++ "  " ++ squo ++ ", " ++
         squo ++ "  " ++ squo ++ "]" ++ squo]) ∧
    (write_ic_names [icVarA, icVarB]).map (fun o => o.ic_rows.map List.length) =
      some [3, 2] := by
  exact ⟨by decide, by decide⟩

theorem lookupKey_append_none {κ α : Type} [DecidableEq κ] (l1 l2 : List (κ × α)) (k : κ)
    (h : lookupKey l1 k = none) : lookupKey (l1 ++ l2) k = lookupKey l2 k := by
  induction l1 with
  | nil => rfl
  | cons p rest ih =>
    simp only [lookupKey, List.cons_append, List.find?_cons] at h ⊢
    by_cases hk : p.1 = k
    · simp [hk] at h
    · simp only [hk, decide_eq_false, Bool.false_eq_true, if_false] at h ⊢
      exact ih h

/-- C5 counterexample: registering `Real` succeeds although `lookup`-style
(case-insensitive) matching already finds the intrinsic `real`, and the
subsequent lookup of `Real` still returns the intrinsic entry, not the new
one - refuting the claim that `register` uses the same case-insensitive
presence test as `lookup` and that lookup afterwards yields the new
entry. -/
theorem c5_counterexample :
    exOk (TypeRegistry.init.add_type (some "Real") (some "my_mod") none) = true ∧
    TypeRegistry.init.known_type "Real" = some (TypeEntry.mk (some "real") none none) ∧
    (TypeRegistry.init.add_type (some "Real") (some "my_mod") none).map
      (fun r2 => r2.known_type "Real") = .ok (some (TypeEntry.mk (some "real") none none)) :=
  ⟨rfl, rfl, rfl⟩

/-- C5 amended: `add_type` fails (naming the prior defining module)
exactly on an exact, case-sensitive key collision; on success the entry is
appended under the exact name, and a subsequent case-insensitive lookup
returns the new entry provided the registered name is already lower
case. -/
theorem c5_register_exact_key (r : TypeRegistry) (nt mod : Option String) (dd : Option DDT) :
    (∀ e, lookupKey r nt = some e →
      r.add_type nt mod dd = .error (.typeCollision nt e.module)) ∧
    (lookupKey r nt = none →
      r.add_type nt mod dd = .ok (r ++ [(nt, TypeEntry.mk nt mod dd)]) ∧
      ∀ s, nt = some s → pyLower s = s →
        TypeRegistry.known_type (r ++ [(nt, TypeEntry.mk nt mod dd)]) s =
          some (TypeEntry.mk nt mod dd)) := by
  constructor
  · intro e he
    unfold TypeRegistry.add_type
    rw [he]
  · intro hn
    refine ⟨by unfold TypeRegistry.add_type; rw [hn], ?_⟩
    intro s hnt hlow
    subst hnt
    unfold TypeRegistry.known_type
    rw [hlow, lookupKey_append_none _ _ _ hn]
    simp [lookupKey, List.find?]

/-- Witness for C5 at concrete inputs: an exact collision with `real`
fails naming the intrinsic scope (`None`), and a fresh lower-case name
registers and is found by lookup afterwards. -/
theorem c5_witness :
    TypeRegistry.init.add_type (some "real") (some "m") none =
      .error (.typeCollision (some "real") none) ∧
    TypeRegistry.init.add_type (some "physics_state") (some "phys") none =
      .ok (TypeRegistry.init ++
        [(some "physics_state", TypeEntry.mk (some "physics_state") (some "phys") none)]) ∧
    TypeRegistry.known_type (TypeRegistry.init ++
        [(some "physics_state", TypeEntry.mk (some "physics_state") (some "phys") none)])
        "physics_state" =
      some (TypeEntry.mk (some "physics_state") (some "phys") none) :=
  ⟨(c5_register_exact_key TypeRegistry.init (some "real") (some "m") none).1
      (TypeEntry.mk (some "real") none none) rfl,
   ((c5_register_exact_key TypeRegistry.init (some "physics_state") (some "phys") none).2
      rfl).1,
   ((c5_register_exact_key TypeRegistry.init (some "physics_state") (some "phys") none).2
      rfl).2 "physics_state" rfl rfl⟩


theorem remove_variable_err (d : VarDict) (t : String) (e : RegError)
    (h : d.remove_variable t = .error e) : e = .pyAttributeError "local_name" := by
  unfold VarDict.remove_variable at h
  split at h
  · split at h
    · simp at h
    · simp only [Except.error.injEq] at h
      exact h.symm
  · simp at h

theorem ddtDataKids_not_parent (dt : Option String) (dyc : String) :
    ∀ (ks : List Node1) (acc : List Variable × VarDict) (e : RegError),
      ddtDataKids dt dyc ks acc = .error e → ∀ a b, e ≠ .unknownParentType a b := by
  intro ks
  induction ks with
  | nil =>
    intro acc e h
    simp [ddtDataKids] at h
  | cons k rest ih =>
    intro acc e h a b
    unfold ddtDataKids at h
    by_cases htag : k.tag = "data"
    · rw [if_pos htag] at h
      by_cases hdy : dycoreExcluded dyc k
      · rw [if_pos hdy] at h
        exact ih _ _ h a b
      · rw [if_neg hdy] at h
        cases hfind : acc.2.find_variable_by_standard_name k.text with
        | none =>
          rw [hfind] at h
          simp only [Except.error.injEq] at h
          subst h
          simp
        | some var =>
          rw [hfind] at h
          cases hrem : acc.2.remove_variable k.text with
          | ok vd2 =>
            rw [hrem] at h
            exact ih _ _ h a b
          | error e2 =>
            rw [hrem] at h
            simp only [Except.error.injEq] at h
            subst h
            have h2 := remove_variable_err _ _ _ hrem
            simp [h2]
    · rw [if_neg htag] at h
      simp only [Except.error.injEq] at h
      subst h
      simp

/-- C6 counterexample: a DDT with `extends="real"` constructs successfully
against a fresh registry, although `real` is an intrinsic, not a
registered derived type - refuting "construction succeeds only when the
named parent is an already-registered derived type". -/
theorem c6_counterexample :
    exOk (DDT.init nodeDDTExtReal TypeRegistry.init vdE "eul") = true := rfl

/-- C6 amended: with a non-empty `extends` attribute, construction fails
with UnknownParentType exactly when the case-insensitive catalog lookup
finds nothing at all; any registered entry - derived type or intrinsic -
passes the check. -/
theorem c6_extends_needs_registered (n : Node2) (reg : TypeRegistry) (vd : VarDict)
    (dyc s : String)
    (hext : getAttr n.attrs "extends" = some s) (hne : s ≠ "") :
    (TypeRegistry.known_type reg s = none →
      DDT.init n reg vd dyc = .error (.unknownParentType (getAttr n.attrs "type") s)) ∧
    (∀ e, TypeRegistry.known_type reg s = some e →
      ∀ a b, DDT.init n reg vd dyc ≠ .error (.unknownParentType a b)) := by
  constructor
  · intro hk
    unfold DDT.init
    simp only [hext, hk]
    rw [if_pos (by simp [optStrTruthy, hne])]
    rfl
  · intro e he a b hcontra
    unfold DDT.init at hcontra
    simp only [hext, he] at hcontra
    rw [if_neg (by simp)] at hcontra
    split at hcontra
    · simp at hcontra
    · split at hcontra
      · simp at hcontra
      · simp only [Except.error.injEq] at hcontra
        subst hcontra
        exact ddtDataKids_not_parent _ _ _ _ _ (by assumption) a b rfl

/-- Witness for C6 at concrete inputs: `extends="foo"` against the fresh
catalog fails with UnknownParentType, while `extends="real"` never
produces that error. -/
theorem c6_witness :
    DDT.init nodeDDTExtFoo TypeRegistry.init vdE "eul" =
      .error (.unknownParentType (some "physics_state") "foo") ∧
    DDT.init nodeDDTExtReal TypeRegistry.init vdE "eul" ≠
      .error (.unknownParentType (some "physics_state") "real") :=
  ⟨(c6_extends_needs_registered nodeDDTExtFoo TypeRegistry.init vdE "eul" "foo"
      rfl (by decide)).1 rfl,
   (c6_extends_needs_registered nodeDDTExtReal TypeRegistry.init vdE "eul" "real"
      rfl (by decide)).2 (TypeEntry.mk (some "real") none none) rfl
      (some "physics_state") "real"⟩

/-- C7 counterexample: in a scope unit whose `ddt` tag precedes the
`variable` tag it references, member resolution fails with UnknownMember -
refuting the claim that variable tags are processed as a first pass so
that an aggregate sees every variable of the unit regardless of relative
order. -/
theorem c7_counterexample :
    File.init fileNodeRev TypeRegistry.init "eul" =
      .error (.unknownMember "x" (some "physics_state") (some "physics_types")) := rfl

/-- C7 amended: `File.__init__` is a single pass in document order - the
processing of a child list decomposes sequentially (each child runs
against the state left by the children before it, and an error aborts the
rest), and the same two tags succeed when the variable comes first. -/
theorem c7_single_pass_in_document_order :
    (∀ (dyc : String) (xs ys : List Node2) (acc : FileState × TypeRegistry),
      fileKids dyc (xs ++ ys) acc = (fileKids dyc xs acc).bind (fileKids dyc ys)) ∧
    exOk (File.init fileNodeFwd TypeRegistry.init "eul") = true := by
  constructor
  · intro dyc xs ys
    induction xs with
    | nil =>
      intro acc
      simp [fileKids, Except.bind]
    | cons k rest ih =>
      intro acc
      rw [List.cons_append]
      unfold fileKids
      cases h : fileStep dyc acc k with
      | ok acc2 => simp [ih]
      | error e => simp [Except.bind]
  · rfl

theorem checkAttrs_ok (ln : Option String) :
    ∀ (attrs : List (String × String)), (∀ a ∈ attrs, a.1 ∈ VAR_ATTRIBUTES) →
      checkAttrs ln attrs = .ok () := by
  intro attrs
  induction attrs with
  | nil => intro _; rfl
  | cons a rest ih =>
    intro h
    obtain ⟨k, v⟩ := a
    unfold checkAttrs
    rw [if_pos (h ⟨k, v⟩ (by simp))]
    exact ih (fun x hx => h x (by simp [hx]))

theorem processVarKids_pass (ar : String) (vd : VarDict) (ln : Option String)
    (rest : List Node1) :
    ∀ (pre : List Node1) (acc : List String × String),
      (∀ k ∈ pre, k.tag ∈ passTags) →
      processVarKids ar vd ln (pre ++ rest) acc = processVarKids ar vd ln rest acc := by
  intro pre
  induction pre with
  | nil => intro acc _; rfl
  | cons k p ih =>
    intro acc h
    have hk : k.tag ∈ passTags := h k (by simp)
    have hnd : k.tag ≠ "dimensions" := by
      intro heq
      rw [heq] at hk
      simp [passTags] at hk
    have hor : k.tag = "long_name" ∨ k.tag = "initial_value" ∨ k.tag = "element" ∨
        k.tag = "ic_file_input_names" := by
      simpa [passTags] using hk
    rw [List.cons_append]
    conv_lhs => rw [processVarKids]
    rw [if_neg hnd, if_pos hor]
    exact ih acc (fun x hx => h x (by simp [hx]))

theorem processVarKids_step (ar : String) (vd : VarDict) (ln : Option String)
    (dk : Node1) (rest : List Node1) (acc : List String × String) (t : String)
    (toks : List String)
    (hdk : dk.tag = "dimensions") (htoks : splitStrip dk.text = t :: toks)
    (hcc : 1 < colonCount t) :
    processVarKids ar vd ln (dk :: rest) acc = .error (.illegalDimensionStep t ln) := by
  unfold processVarKids
  rw [if_pos hdk, htoks]
  unfold processTokens
  rw [if_pos hcc]

/-- C8: a dimension token with two (or more) `':'` separators always fails
construction with IllegalDimensionStep - whatever the allocation mode
(quantified through the node's attributes), whatever the scope dictionary
(so however the components would resolve), as soon as its `dimensions`
child is reached. -/
theorem c8_step_always_illegal (n : Node2) (reg : TypeRegistry) (vd : VarDict)
    (pre : List Node1) (dk : Node1) (rest : List Node1) (t : String) (toks : List String)
    (hattrs : ∀ a ∈ n.attrs, a.1 ∈ VAR_ATTRIBUTES)
    (hkids : n.kids = pre ++ dk :: rest)
    (hpre : ∀ k ∈ pre, k.tag ∈ passTags)
    (hdk : dk.tag = "dimensions")
    (htoks : splitStrip dk.text = t :: toks)
    (hcc : 1 < colonCount t) :
    Variable.init n reg vd =
      .error (.illegalDimensionStep t (getAttr n.attrs "local_name")) := by
  have h1 : checkAttrs (getAttr n.attrs "local_name") n.attrs = .ok () :=
    checkAttrs_ok _ _ hattrs
  have h2 : processVarKids (getAttrD n.attrs "allocatable" "none") vd
      (getAttr n.attrs "local_name") n.kids ([], "") =
      .error (.illegalDimensionStep t (getAttr n.attrs "local_name")) := by
    rw [hkids, processVarKids_pass _ _ _ _ pre _ hpre]
    exact processVarKids_step _ _ _ _ _ _ _ _ hdk htoks hcc
  simp only [Variable.init, h1, h2]

/-- Witness for C8 at the spec scenario: `east_wind` with dimension string
`A:B:C` fails with IllegalDimensionStep naming the token. -/
theorem c8_witness :
    1 < colonCount "A:B:C" ∧
    Variable.init nodeStep TypeRegistry.init vdE =
      .error (.illegalDimensionStep "A:B:C" (some "u")) :=
  ⟨by decide,
   c8_step_always_illegal nodeStep TypeRegistry.init vdE [] dimsKidStep [] "A:B:C" []
     (by decide) rfl (by simp) rfl rfl (by decide)⟩

theorem processVarKids_unknown (ar : String) (vd : VarDict) (ln : Option String)
    (bad : Node1) (rest : List Node1) (acc : List String × String)
    (h1 : bad.tag ≠ "dimensions") (h2 : bad.tag ∉ passTags) :
    processVarKids ar vd ln (bad :: rest) acc = .error (.unknownContent bad.tag) := by
  have hor : ¬(bad.tag = "long_name" ∨ bad.tag = "initial_value" ∨ bad.tag = "element" ∨
      bad.tag = "ic_file_input_names") := by
    simpa [passTags] using h2
  unfold processVarKids
  rw [if_neg h1, if_neg hor]

theorem varBaseStep_skip (acc : String × String × Option (List String))
    (x : String × String) (hx : x.1 ∉ recognizedTags) : varBaseStep acc x = acc := by
  have h1 : x.1 ≠ "long_name" := fun h => hx (by simp [recognizedTags, h])
  have h2 : x.1 ≠ "initial_value" := fun h => hx (by simp [recognizedTags, h])
  have h3 : x.1 ≠ "ic_file_input_names" := fun h => hx (by simp [recognizedTags, h])
  unfold varBaseStep
  rw [if_neg h1, if_neg h2, if_neg h3]

theorem varBaseScan_ignores (l : List (String × String)) :
    varBaseScan (l.filter (fun p => p.1 ∈ recognizedTags)) = varBaseScan l := by
  unfold varBaseScan
  suffices h : ∀ acc, (l.filter (fun p => p.1 ∈ recognizedTags)).foldl varBaseStep acc =
      l.foldl varBaseStep acc from h _
  induction l with
  | nil => intro acc; rfl
  | cons x xs ih =>
    intro acc
    by_cases hx : x.1 ∈ recognizedTags
    · simp only [List.filter_cons, hx, decide_eq_true, if_true, List.foldl_cons]
      exact ih _
    · simp only [List.filter_cons, hx, decide_eq_false, Bool.false_eq_true, if_false,
        List.foldl_cons, varBaseStep_skip _ _ hx]
      exact ih _

theorem mapTT_filter (l : List Node0) :
    (l.filter (fun k => k.tag ∈ recognizedTags)).map (fun k => (k.tag, k.text)) =
      (l.map (fun k => (k.tag, k.text))).filter (fun p => p.1 ∈ recognizedTags) := by
  induction l with
  | nil => rfl
  | cons x xs ih =>
    by_cases hx : x.tag ∈ recognizedTags
    · simp [List.filter_cons, hx, ih]
    · simp [List.filter_cons, hx, ih]

theorem varBaseInitM_scan_congr (attrs : List (String × String))
    (K1 K2 : List (String × String)) (h : varBaseScan K1 = varBaseScan K2) :
    VarBase.initM attrs K1 = VarBase.initM attrs K2 := by
  funext ln known td ud kd ad
  unfold VarBase.initM
  rw [h]

/-- C9 amended: during `Variable` construction any child tag outside
{dimensions, long_name, initial_value, element, ic_file_input_names}
(reached after well-formed attributes and error-free earlier children) is
a fatal UnknownContent; during `ArrayElement` construction, however,
children with unrecognised tags are silently ignored - dropping them does
not change the constructed element at all. -/
theorem c9_closed_child_tags :
    (∀ (n : Node2) (reg : TypeRegistry) (vd : VarDict) (pre : List Node1) (bad : Node1)
      (rest : List Node1),
      (∀ a ∈ n.attrs, a.1 ∈ VAR_ATTRIBUTES) →
      n.kids = pre ++ bad :: rest →
      (∀ k ∈ pre, k.tag ∈ passTags) →
      bad.tag ≠ "dimensions" → bad.tag ∉ passTags →
      Variable.init n reg vd = .error (.unknownContent bad.tag)) ∧
    (∀ (kid : Node1) (pn : Option String) (dims : List String) (reg : TypeRegistry)
      (pt : Option String) (pk pu pa : String) (vd : VarDict),
      ArrayElement.init ⟨kid.tag, kid.attrs, kid.text,
          kid.kids.filter (fun k => k.tag ∈ recognizedTags)⟩ pn dims reg pt pk pu pa vd =
        ArrayElement.init kid pn dims reg pt pk pu pa vd) := by
  constructor
  · intro n reg vd pre bad rest hattrs hkids hpre h1 h2
    have hc : checkAttrs (getAttr n.attrs "local_name") n.attrs = .ok () :=
      checkAttrs_ok _ _ hattrs
    have hk : processVarKids (getAttrD n.attrs "allocatable" "none") vd
        (getAttr n.attrs "local_name") n.kids ([], "") =
        .error (.unknownContent bad.tag) := by
      rw [hkids, processVarKids_pass _ _ _ _ pre _ hpre]
      exact processVarKids_unknown _ _ _ _ _ _ h1 h2
    simp only [Variable.init, hc, hk]
  · intro kid pn dims reg pt pk pu pa vd
    have hK : VarBase.initM kid.attrs
        ((kid.kids.filter (fun k => k.tag ∈ recognizedTags)).map (fun k => (k.tag, k.text))) =
        VarBase.initM kid.attrs (kid.kids.map (fun k => (k.tag, k.text))) := by
      apply varBaseInitM_scan_congr
      rw [mapTT_filter]
      exact varBaseScan_ignores _
    simp only [ArrayElement.init]
    rw [hK]

/-- C9 counterexample: an `element` node with the unknown child tag
`dessert` constructs successfully - refuting the claim that array-element
construction rejects children outside the closed tag set with
UnknownContent. -/
theorem c9_counterexample :
    exOk (ArrayElement.init elemNodeDessert (some "temp") ["lev"] TypeRegistry.init
      (some "real") "" "K" "none" dictIndexK) = true := rfl

/-- Witness for C9 at concrete inputs: the variable-level check fires on a
`dessert` child, and filtering the same tag out of an `element` node
leaves its construction unchanged. -/
theorem c9_witness :
    Variable.init nodeVarDessert TypeRegistry.init vdE =
      .error (.unknownContent "dessert") ∧
    ArrayElement.init ⟨elemNodeDessert.tag, elemNodeDessert.attrs, elemNodeDessert.text,
        elemNodeDessert.kids.filter (fun k => k.tag ∈ recognizedTags)⟩
      (some "temp") ["lev"] TypeRegistry.init (some "real") "" "K" "none" dictIndexK =
    ArrayElement.init elemNodeDessert (some "temp") ["lev"] TypeRegistry.init (some "real")
      "" "K" "none" dictIndexK :=
  ⟨c9_closed_child_tags.1 nodeVarDessert TypeRegistry.init vdE []
     (⟨"dessert", [], "ice_cream", []⟩ : Node1) [] (by decide) rfl (by simp)
     (by decide) (by decide),
   c9_closed_child_tags.2 elemNodeDessert (some "temp") ["lev"] TypeRegistry.init
     (some "real") "" "K" "none" dictIndexK⟩
